import Mathlib

/-!
Verification development for the retry/observability subsystem of the
ydb-go-sdk example repository.

The file embeds, shallowly:
  - the structured retry logger of src/log/retry.go (function log.Retry),
    with log emission modelled as values: each Go logging call becomes a
    structured LogEntry carrying the logger name, the severity level and
    the rendered fields of the format string;
  - the collaborating pieces of the repository that are not under src/
    (the errors package predicate IsYdb, the retry package classifier
    Check, the trace package event records and the retry orchestrator),
    modelled from the specification, each marked in its doc comment;
  - the idempotency flags at the sp.Retry call sites of the example
    program (src/unnamed/part_000).

Time is embedded explicitly: every Go closure that reads the clock
(time.Now, time.Since) becomes a function that receives the current time
as a Nat argument, and time.Since start becomes Nat subtraction.
-/

/-- Severity levels of the Logger interface used by src/log/retry.go
(Tracef, Debugf, Errorf). -/
inductive Level where
  | trace
  | debug
  | error
deriving DecidableEq, Repr

/-- Modelled from the spec: an error produced by an attempt is either
backend-originated and carries a numeric status code, or is a local
(non-backend) error.  The message is the string produced by the Go
error's Error method (rendered with a %s verb in the log lines). -/
inductive Err where
  | backend (code : Int) (msg : String)
  | nonBackend (msg : String)
deriving DecidableEq, Repr

/-- The string rendering of the error value, as formatted by %s. -/
def Err.message : Err → String
  | .backend _ msg => msg
  | .nonBackend msg => msg

namespace Errors

/-- Modelled from the spec: errors.IsYdb of the errors package (not under
src/) answers whether the error is backend-originated. -/
def IsYdb : Err → Bool
  | .backend _ _ => true
  | .nonBackend _ => false

end Errors

/-- Modelled from the spec: a status code of the transient overload kind
(always retryable). -/
def statusOverloaded : Int := 1

/-- Modelled from the spec: a status code of the transient unavailable
kind (always retryable). -/
def statusUnavailable : Int := 2

/-- Modelled from the spec: the status code signaling a conflicting
concurrent write (retryable only when the operation is idempotent). -/
def statusAborted : Int := 3

/-- Modelled from the spec: the status code of a malformed request (never
retryable). -/
def statusBadRequest : Int := 4

/-- Modelled from the spec: the status code of a permission denial (never
retryable). -/
def statusUnauthorized : Int := 5

/-- Modelled from the spec: the status code telling that the session is
no longer valid (retryable, session must be discarded). -/
def statusBadSession : Int := 6

/-- Modelled from the spec: the status code telling that the session has
expired (retryable, session must be discarded). -/
def statusSessionExpired : Int := 7

/-- Retryability kind of a backend status code. -/
inductive RetryType where
  | never
  | conditionally
  | always
deriving DecidableEq, Repr

/-- Modelled from the spec: retryability is a static function of the
status code; transient overload/unavailable and invalid-session codes
are always retryable, the conflicting-concurrent-write code is
conditionally retryable, every other code (malformed request, permission
denial, unknown) is never retryable. -/
def codeRetryType (code : Int) : RetryType :=
  if code = statusOverloaded ∨ code = statusUnavailable ∨
     code = statusBadSession ∨ code = statusSessionExpired then
    RetryType.always
  else if code = statusAborted then
    RetryType.conditionally
  else
    RetryType.never

/-- Modelled from the spec: the session must be discarded exactly for the
codes indicating the session or connection is no longer valid,
independent of retryability. -/
def codeDeleteSession (code : Int) : Bool :=
  code = statusBadSession ∨ code = statusSessionExpired

/-- Modelled from the spec: the classification value returned by
retry.Check of the retry package (not under src/). -/
structure RetryMode where
  retryType : RetryType
  code : Int
  deleteSession : Bool
deriving DecidableEq, Repr

/-- Modelled from the spec: the retryable verdict, conditioned on the
idempotency of the operation for conditionally retryable codes. -/
def RetryMode.MustRetry (m : RetryMode) (idempotent : Bool) : Bool :=
  match m.retryType with
  | RetryType.always => true
  | RetryType.conditionally => idempotent
  | RetryType.never => false

/-- The numeric status code of the classification (rendered with %d). -/
def RetryMode.StatusCode (m : RetryMode) : Int := m.code

/-- The discard-session verdict of the classification. -/
def RetryMode.MustDeleteSession (m : RetryMode) : Bool := m.deleteSession

namespace Retry

/-- Modelled from the spec: retry.Check of the retry package (not under
src/) classifies an error; backend errors are classified by their status
code, non-backend and unknown errors default to non-retryable and
non-discard. -/
def Check : Err → RetryMode
  | Err.backend code _ => ⟨codeRetryType code, code, codeDeleteSession code⟩
  | Err.nonBackend _ => ⟨RetryType.never, 0, false⟩

end Retry

/-- One rendered log line of src/log/retry.go, with the format-string
arguments as structured fields: the five format strings of the file are
the five constructors.  A field appears in a constructor exactly when
the corresponding verb appears in the Go format string. -/
inductive RetryLogLine where
  | start (id : String) (idempotent : Bool)
  | attemptDone (id : String) (latency : Nat)
  | attemptFailed (id : String) (latency : Nat) (err : String)
      (retryable : Bool) (code : Int) (deleteSession : Bool)
  | done (id : String) (latency : Nat) (attempts : Nat)
  | failed (id : String) (latency : Nat) (attempts : Nat) (err : String)
      (retryable : Bool) (code : Int) (deleteSession : Bool)
deriving DecidableEq, Repr

/-- The loop identifier field of a line. -/
def RetryLogLine.lineId : RetryLogLine → String
  | .start i _ => i
  | .attemptDone i _ => i
  | .attemptFailed i _ _ _ _ _ => i
  | .done i _ _ => i
  | .failed i _ _ _ _ _ _ => i

/-- The latency field of a line (0 for the start line, which has none). -/
def RetryLogLine.latency : RetryLogLine → Nat
  | .start _ _ => 0
  | .attemptDone _ lat => lat
  | .attemptFailed _ lat _ _ _ _ => lat
  | .done _ lat _ => lat
  | .failed _ lat _ _ _ _ _ => lat

/-- The retryable field of a line, when the line carries one. -/
def RetryLogLine.retryable? : RetryLogLine → Option Bool
  | .attemptFailed _ _ _ r _ _ => some r
  | .failed _ _ _ _ r _ _ => some r
  | _ => none

/-- The status code field of a line, when the line carries one. -/
def RetryLogLine.code? : RetryLogLine → Option Int
  | .attemptFailed _ _ _ _ c _ => some c
  | .failed _ _ _ _ _ c _ => some c
  | _ => none

/-- The deleteSession field of a line, when the line carries one. -/
def RetryLogLine.deleteSession? : RetryLogLine → Option Bool
  | .attemptFailed _ _ _ _ _ d => some d
  | .failed _ _ _ _ _ _ d => some d
  | _ => none

/-- The attempts field of a line, when the line carries one. -/
def RetryLogLine.attempts? : RetryLogLine → Option Nat
  | .done _ _ a => some a
  | .failed _ _ a _ _ _ _ => some a
  | _ => none

/-- A logger, carrying only its name components; WithName appends one. -/
structure Logger where
  name : List String
deriving DecidableEq, Repr

/-- Logger.WithName of the log package: extends the logger name. -/
def Logger.WithName (l : Logger) (n : String) : Logger :=
  ⟨l.name ++ [n]⟩

/-- One emitted log line: the logger name in force, the severity of the
logging call (Tracef, Debugf or Errorf), and the rendered line. -/
structure LogEntry where
  loggerName : List String
  level : Level
  line : RetryLogLine
deriving DecidableEq, Repr

namespace Trace

/-- trace.RetryLoopStartInfo (not under src/): the loop identifier and
the idempotency flag of one retry loop. -/
structure RetryLoopStartInfo where
  ID : String
  Idempotent : Bool
deriving DecidableEq, Repr

/-- trace.RetryLoopIntermediateInfo (not under src/): the outcome of one
attempt, none meaning success. -/
structure RetryLoopIntermediateInfo where
  Error : Option Err
deriving DecidableEq, Repr

/-- trace.RetryLoopDoneInfo (not under src/): the final outcome and the
total number of attempts of the loop. -/
structure RetryLoopDoneInfo where
  Error : Option Err
  Attempts : Nat
deriving DecidableEq, Repr

/-- Modelled from the spec: the bit of the trace.Details bitmask that
enables retry lifecycle events. -/
def RetryEvents : Nat := 1

/-- trace.Retry (not under src/): the retry trace record; its only field
is the nilable OnRetry callback.  Each stage of the Go closure chain
receives the current time and returns the log entries it emits paired
with the next stage. -/
structure Retry where
  OnRetry : Option (RetryLoopStartInfo → Nat →
    List LogEntry × (RetryLoopIntermediateInfo → Nat →
      List LogEntry × (RetryLoopDoneInfo → Nat → List LogEntry))) := none

end Trace

/-- The closure installed as OnRetry by log.Retry (src/log/retry.go,
lines 15 to 72), with the logger already renamed.  It logs the start
line, captures id, idempotent and the start time, and returns the
attempt stage; the attempt stage logs the attempt outcome (trace level
on success; error or debug level with the full classification on
failure) and returns the done stage, which logs the summary line.
Every latency is time.Since(start), embedded as the current time minus
the captured start time. -/
def onRetryHandler (l : Logger) :
    Trace.RetryLoopStartInfo → Nat →
      List LogEntry × (Trace.RetryLoopIntermediateInfo → Nat →
        List LogEntry × (Trace.RetryLoopDoneInfo → Nat → List LogEntry)) :=
  fun info now =>
    let id := info.ID
    let idempotent := info.Idempotent
    let start := now
    ( [⟨l.name, Level.trace, RetryLogLine.start id idempotent⟩],
      fun ii now2 =>
        ( match ii.Error with
          | none =>
              [⟨l.name, Level.trace,
                RetryLogLine.attemptDone id (now2 - start)⟩]
          | some e =>
              let lvl := if Errors.IsYdb e then Level.error else Level.debug
              let m := Retry.Check e
              [⟨l.name, lvl,
                RetryLogLine.attemptFailed id (now2 - start) e.message
                  (m.MustRetry idempotent) m.StatusCode m.MustDeleteSession⟩],
          fun di now3 =>
            match di.Error with
            | none =>
                [⟨l.name, Level.trace,
                  RetryLogLine.done id (now3 - start) di.Attempts⟩]
            | some e =>
                let lvl := if Errors.IsYdb e then Level.error else Level.debug
                let m := Retry.Check e
                [⟨l.name, lvl,
                  RetryLogLine.failed id (now3 - start) di.Attempts e.message
                    (m.MustRetry idempotent) m.StatusCode m.MustDeleteSession⟩] ) )

namespace Log

/-- log.Retry (src/log/retry.go): when the retry-events bit of details is
set, renames the logger with the component name and installs the
handler chain as OnRetry; otherwise returns the zero trace.Retry value,
whose OnRetry is unset. -/
def Retry (l : Logger) (details : Nat) : Trace.Retry :=
  if details &&& Trace.RetryEvents ≠ 0 then
    { OnRetry := some (onRetryHandler (l.WithName "retry")) }
  else
    {}

end Log

/-- A lifecycle event delivered to the observer, for the orchestrator
model. -/
inductive Event where
  | loopStart (id : String) (idempotent : Bool)
  | attempt (seq : Nat) (err : Option Err)
  | loopDone (err : Option Err) (attempts : Nat)
deriving DecidableEq, Repr

namespace RetryOrchestrator

/-- Modelled from the spec: the body of the retry loop of the
orchestrator (section 4.1), which is not under src/.  The operation body
op gives the outcome of each attempt by its 1-based sequence number
(none meaning success); fuel is the number of further attempts the
policy still allows.  Attempt n is executed, its outcome event emitted;
on success or on a non-retryable error or on exhaustion the loop stops,
otherwise it recurses on attempt n + 1.  Returns the attempt events, the
final error and the number of the last attempt. -/
def loopFrom (idempotent : Bool) (op : Nat → Option Err) :
    Nat → Nat → List Event × Option Err × Nat
  | n, 0 =>
    match op n with
    | none => ([Event.attempt n none], none, n)
    | some e => ([Event.attempt n (some e)], some e, n)
  | n, fuel + 1 =>
    match op n with
    | none => ([Event.attempt n none], none, n)
    | some e =>
      if (Retry.Check e).MustRetry idempotent then
        let r := loopFrom idempotent op (n + 1) fuel
        (Event.attempt n (some e) :: r.1, r.2.1, r.2.2)
      else
        ([Event.attempt n (some e)], some e, n)

/-- Modelled from the spec: RetryOrchestrator.Run (section 4.1).  Emits
the loop-start event, runs the attempt loop with at most maxAttempts
attempts, then emits the loop-done event carrying the final error and
the total attempt count.  Returns the emitted event sequence and the
final error. -/
def Run (id : String) (idempotent : Bool) (op : Nat → Option Err)
    (maxAttempts : Nat) : List Event × Option Err :=
  let r := loopFrom idempotent op 1 (maxAttempts - 1)
  (Event.loopStart id idempotent :: (r.1 ++ [Event.loopDone r.2.1 r.2.2]),
   r.2.1)

end RetryOrchestrator

/-- The idempotent argument passed at each of the nine sp.Retry call
sites of the example program (src/unnamed/part_000), in source order:
readTable, describeTableOptions, selectSimple, the scan-query select,
fillTablesWithData, the three CreateTable calls of createTables, and
describeTable. -/
def exampleRetryIdempotentFlags : List Bool :=
  [false, false, false, false, false, false, false, false, false]

/-- C1: for every attempt-outcome event whose error is non-null, the
attempt stage of the log.Retry handler emits exactly one line, at error
level when errors.IsYdb holds of the error and at debug level otherwise,
and the line carries the classification detail: the status code, the
retryable verdict and the delete-session verdict of retry.Check. -/
theorem attempt_failure_line (l : Logger) (info : Trace.RetryLoopStartInfo)
    (now n2 : Nat) (e : Err) :
    ((onRetryHandler l info now).2 ⟨some e⟩ n2).1 =
      [⟨l.name, if Errors.IsYdb e then Level.error else Level.debug,
        RetryLogLine.attemptFailed info.ID (n2 - now) e.message
          ((Retry.Check e).MustRetry info.Idempotent)
          (Retry.Check e).StatusCode (Retry.Check e).MustDeleteSession⟩] := by
  rfl

/-- C2 counterexample: the latency rendered in an attempt-outcome line is
not the duration of that single attempt.  Scenario: the loop starts at
time 0, the first attempt occupies the interval from 0 to 3, the second
attempt runs inside the interval from 3 to 5 and its handler is invoked
at time 5, so the second attempt's own duration is at most 5 - 3 = 2;
the code renders latency 5, the elapsed time since the loop started. -/
theorem attempt_latency_counterexample :
    (((onRetryHandler ⟨["ydb", "retry"]⟩ ⟨"cex", false⟩ 0).2
        ⟨some (Err.backend statusUnavailable "unavailable")⟩ 5).1.map
      fun en => en.line.latency) = [5] ∧ ¬ (5 : Nat) ≤ 5 - 3 := by
  exact ⟨rfl, by decide⟩

/-- C2 amended: the latency rendered in every attempt-outcome line (for
success and failure outcomes alike) is the elapsed time since the loop
start, computed from the start timestamp captured by the loop-start
stage, so for attempts after the first it includes the time spent on
earlier attempts and backoffs. -/
theorem attempt_latency_elapsed_since_start (l : Logger)
    (info : Trace.RetryLoopStartInfo) (start n2 : Nat) (oe : Option Err) :
    (((onRetryHandler l info start).2 ⟨oe⟩ n2).1.map
      fun en => en.line.latency) = [n2 - start] := by
  cases oe <;> rfl

/-- C3: the retryable verdict rendered in the attempt-failure line and in
the loop-failure line is MustRetry of the error's classification applied
to the idempotency flag captured from the loop-start event of the same
loop; and for the conflicting-concurrent-write status code the verdict
differs between a loop started with idempotent true and one started with
idempotent false. -/
theorem retryable_verdict_uses_loop_idempotency (l : Logger)
    (info : Trace.RetryLoopStartInfo) (now n2 n3 att : Nat) (e eDone : Err)
    (ai : Trace.RetryLoopIntermediateInfo) :
    ((((onRetryHandler l info now).2 ⟨some e⟩ n2).1).map
        fun en => en.line.retryable?) =
      [some ((Retry.Check e).MustRetry info.Idempotent)]
    ∧ ((((onRetryHandler l info now).2 ai n2).2 ⟨some eDone, att⟩ n3).map
        fun en => en.line.retryable?) =
      [some ((Retry.Check eDone).MustRetry info.Idempotent)]
    ∧ (Retry.Check (Err.backend statusAborted "aborted")).MustRetry true = true
    ∧ (Retry.Check (Err.backend statusAborted "aborted")).MustRetry false
        = false := by
  exact ⟨rfl, rfl, by decide, by decide⟩

/-- C4: for every loop-done event, in the success case and the failure
case alike, the done stage of the log.Retry handler emits exactly one
summary line, and that line carries the loop identifier, the total
number of attempts of the loop, and the elapsed time of the whole
loop. -/
theorem done_summary_line (l : Logger) (info : Trace.RetryLoopStartInfo)
    (now n2 n3 : Nat) (ai : Trace.RetryLoopIntermediateInfo)
    (di : Trace.RetryLoopDoneInfo) :
    ((((onRetryHandler l info now).2 ai n2).2 di n3).map
      fun en => (en.line.lineId, en.line.attempts?, en.line.latency)) =
    [(info.ID, some di.Attempts, n3 - now)] := by
  obtain ⟨oe, a⟩ := di
  cases oe <;> rfl

/-- C5: the handler chain has the nested shape: the loop-start stage
returns the attempt stage, the attempt stage returns the loop-done
stage, and the done stage is the one supplied by the same loop-start
invocation: it does not depend on the attempt outcome or on the attempt
time, and the start line, like every done line, carries the loop-start
event's identifier, its latency is measured from the loop-start
timestamp, and its retryable verdict on failure uses the loop-start
event's idempotency flag. -/
theorem observer_chain_nested_shape (l : Logger)
    (info : Trace.RetryLoopStartInfo) (now n2 n2' n3 att : Nat)
    (ai ai' : Trace.RetryLoopIntermediateInfo)
    (di : Trace.RetryLoopDoneInfo) (e : Err) :
    ((onRetryHandler l info now).2 ai n2).2
        = ((onRetryHandler l info now).2 ai' n2').2
    ∧ ((onRetryHandler l info now).1.map fun en => en.line.lineId)
        = [info.ID]
    ∧ ((((onRetryHandler l info now).2 ai n2).2 di n3).map
        fun en => en.line.lineId) = [info.ID]
    ∧ ((((onRetryHandler l info now).2 ai n2).2 di n3).map
        fun en => en.line.latency) = [n3 - now]
    ∧ ((((onRetryHandler l info now).2 ai n2).2 ⟨some e, att⟩ n3).map
        fun en => en.line.retryable?) =
      [some ((Retry.Check e).MustRetry info.Idempotent)] := by
  obtain ⟨oe, a⟩ := di
  refine ⟨rfl, rfl, ?_, ?_, rfl⟩ <;> cases oe <;> rfl

/-- C6: log.Retry is gated by the details bitmask: OnRetry is unset
exactly when the retry-events bit is not set, and when the bit is set
the installed handler is the logging chain over the logger renamed with
the component name, which extends the logger name with the component
name. -/
theorem retry_details_gating (l : Logger) (details : Nat) :
    (Log.Retry l details).OnRetry =
      (if details &&& Trace.RetryEvents ≠ 0 then
        some (onRetryHandler (l.WithName "retry"))
      else none)
    ∧ (l.WithName "retry").name = l.name ++ ["retry"] := by
  constructor
  · unfold Log.Retry
    split <;> rfl
  · rfl

/-- C8: for every attempt-outcome event whose error is null, the attempt
stage emits exactly one line, at trace level, carrying only the loop
identifier and a latency: the line has no retryable, status code or
delete-session field. -/
theorem attempt_success_trace_line (l : Logger)
    (info : Trace.RetryLoopStartInfo) (now n2 : Nat) :
    ((onRetryHandler l info now).2 ⟨none⟩ n2).1 =
      [⟨l.name, Level.trace, RetryLogLine.attemptDone info.ID (n2 - now)⟩]
    ∧ (RetryLogLine.attemptDone info.ID (n2 - now)).retryable? = none
    ∧ (RetryLogLine.attemptDone info.ID (n2 - now)).code? = none
    ∧ (RetryLogLine.attemptDone info.ID (n2 - now)).deleteSession? = none := by
  exact ⟨rfl, rfl, rfl, rfl⟩

/-- C9: the severity rule of the loop-done summary mirrors the
attempt-failure rule: when the final error is non-null the single
summary line is at error level when errors.IsYdb holds of it and at
debug level otherwise, and it carries the full classification detail of
the final error: status code, retryable verdict and delete-session
verdict. -/
theorem done_failure_severity_line (l : Logger)
    (info : Trace.RetryLoopStartInfo) (now n2 n3 att : Nat)
    (ai : Trace.RetryLoopIntermediateInfo) (e : Err) :
    (((onRetryHandler l info now).2 ai n2).2 ⟨some e, att⟩ n3) =
      [⟨l.name, if Errors.IsYdb e then Level.error else Level.debug,
        RetryLogLine.failed info.ID (n3 - now) att e.message
          ((Retry.Check e).MustRetry info.Idempotent)
          (Retry.Check e).StatusCode (Retry.Check e).MustDeleteSession⟩] := by
  rfl

/-- Shape of the attempt loop: starting at attempt n with any fuel, the
loop executes some positive number N of consecutive attempts, emits
exactly their outcome events in increasing attempt order, and reports
the last attempt's number as the attempt count. -/
theorem loopFrom_shape (idem : Bool) (op : Nat → Option Err) :
    ∀ fuel n, ∃ N : Nat, 1 ≤ N ∧
      (RetryOrchestrator.loopFrom idem op n fuel).1 =
        (List.range' n N).map (fun k => Event.attempt k (op k)) ∧
      (RetryOrchestrator.loopFrom idem op n fuel).2.2 = n + N - 1 := by
  intro fuel
  induction fuel with
  | zero =>
    intro n
    refine ⟨1, le_refl 1, ?_, ?_⟩ <;> cases h : op n <;>
      simp [RetryOrchestrator.loopFrom, h]
  | succ fuel ih =>
    intro n
    cases h : op n with
    | none =>
      refine ⟨1, le_refl 1, ?_, ?_⟩ <;>
        simp [RetryOrchestrator.loopFrom, h]
    | some e =>
      by_cases hr : (Retry.Check e).MustRetry idem = true
      · obtain ⟨N, hN, h1, h2⟩ := ih (n + 1)
        refine ⟨N + 1, by omega, ?_, ?_⟩
        · rw [List.range'_succ]
          simp [RetryOrchestrator.loopFrom, h, hr, h1]
        · simp [RetryOrchestrator.loopFrom, h, hr, h2]
      · refine ⟨1, le_refl 1, ?_, ?_⟩ <;>
          simp [RetryOrchestrator.loopFrom, h, hr]

/-- C7: for every Run invocation of the orchestrator model, the emitted
event sequence is exactly one loop-start event, then N attempt-outcome
events with N at least 1, in increasing attempt order and each carrying
the operation body's outcome for that attempt (so N equals the number of
operation-body invocations), then exactly one loop-done event carrying
the final error and the attempt count N. -/
theorem run_event_sequence_shape (id : String) (idem : Bool)
    (op : Nat → Option Err) (maxAttempts : Nat) :
    ∃ N : Nat, 1 ≤ N ∧
      (RetryOrchestrator.Run id idem op maxAttempts).1 =
        Event.loopStart id idem ::
          ((List.range' 1 N).map (fun k => Event.attempt k (op k)) ++
            [Event.loopDone
              (RetryOrchestrator.Run id idem op maxAttempts).2 N]) := by
  obtain ⟨N, hN, h1, h2⟩ := loopFrom_shape idem op (maxAttempts - 1) 1
  have hNN : 1 + N - 1 = N := by omega
  refine ⟨N, hN, ?_⟩
  simp [RetryOrchestrator.Run, h1, h2, hNN]

/-- C10: every sp.Retry call site of the example program passes the
idempotent flag false, and with idempotent false the retryable verdict
of every conditionally-retryable backend error is false, so such errors
are not retried there. -/
theorem example_call_sites_not_idempotent :
    exampleRetryIdempotentFlags = List.replicate 9 false
    ∧ ∀ (code : Int) (msg : String),
        codeRetryType code = RetryType.conditionally →
          (Retry.Check (Err.backend code msg)).MustRetry false = false := by
  refine ⟨rfl, ?_⟩
  intro code msg h
  simp [Retry.Check, RetryMode.MustRetry, h]

/-- Witness for C10 at the conflicting-concurrent-write status code. -/
theorem example_call_sites_not_idempotent_witness :
    exampleRetryIdempotentFlags = List.replicate 9 false
    ∧ (Retry.Check (Err.backend statusAborted "conflict")).MustRetry false
        = false :=
  ⟨example_call_sites_not_idempotent.1,
   example_call_sites_not_idempotent.2 statusAborted "conflict" (by decide)⟩
